import Mathlib

/-!
Verification of the mastra-qortex remote-procedure adapter layer.

The development shallowly embeds the two classes of the package:

* `QortexVector` (src/unnamed/part_001, lines 48-308): each method is embedded
  as an `McpCall`, a pair of (a) the tool invocation it builds — remote tool
  name plus the argument mapping, where an entry whose value is `none` models a
  JavaScript object key holding `undefined` — and (b) the pure decoding of the
  structured payload that `callTool` hands back.
* `QortexMcpClient` (src/unnamed/part_001, lines 331-419): the content-part
  extraction of `callTool`, and the connect/disconnect lifecycle as a state
  machine over the fields `client`, `transport`, `_connected`, together with
  counters for the spawn and close side effects.

Decoded payloads are JSON values; argument mappings additionally distinguish a
present-but-`undefined` entry (`Option Json` with `none`), matching how the
source builds object literals like `{ metadata: metadata ?? undefined }`.
-/

/-- JSON-like structured data, as produced by decoding the textual part of an
MCP tool response. Numbers are modelled as rationals (the adapter performs no
arithmetic on them; they are carried opaquely). -/
inductive Json where
  | null : Json
  | bool : Bool → Json
  | num : Rat → Json
  | str : String → Json
  | arr : List Json → Json
  | obj : List (String × Json) → Json
deriving Repr

namespace Json

/-- Property access `payload.key` on a decoded value: the first field with the
given key, or `none` (JavaScript `undefined`) when the key is absent or the
value is not an object. -/
def getField? (j : Json) (key : String) : Option Json :=
  match j with
  | .obj fields => (fields.find? (fun p => p.1 == key)).map (fun p => p.2)
  | _ => none

/-- JavaScript truthiness of a decoded value: `null`, `false`, `0` and the
empty string are falsy; arrays and objects are always truthy. -/
def truthy : Json → Bool
  | .null => false
  | .bool b => b
  | .num q => q != 0
  | .str s => s != ""
  | .arr _ => true
  | .obj _ => true

/-- Truthiness of `payload.key`, where an absent key (`undefined`) is falsy.
This embeds the guard `if (result.error)` used throughout the adapter. -/
def fieldTruthy (j : Json) (key : String) : Bool :=
  match j.getField? key with
  | some v => v.truthy
  | none => false

mutual

/-- Model of the JavaScript string coercion `String(v)` that the `Error`
constructor applies to its message argument. It is exact on primitive values
(the only values the adapter ever throws are the remote-supplied error
strings); arrays join their coerced elements with commas, `null` elements
rendering empty, and objects render as the standard object tag. The numeric
rendering stands in for JavaScript number formatting, which no theorem below
depends on. -/
def toJsString : Json → String
  | .null => "null"
  | .bool b => cond b "true" "false"
  | .num q => toString q.num ++ (if q.den = 1 then "" else "/" ++ toString q.den)
  | .str s => s
  | .arr xs => joinJsStrings xs
  | .obj _ => "[object Object]"

/-- Model of `Array.prototype.join ","` over coerced elements. -/
def joinJsStrings : List Json → String
  | [] => ""
  | [Json.null] => ""
  | [j] => toJsString j
  | Json.null :: rest => "," ++ joinJsStrings rest
  | j :: rest => toJsString j ++ "," ++ joinJsStrings rest

end

end Json

/-- A tool invocation handed to `QortexMcpClient.callTool`: the remote tool
name and the argument object. Each argument entry is a key of the object
literal built by the source; a `none` value models the key being present with
the JavaScript value `undefined`. -/
structure ToolCall where
  name : String
  args : List (String × Option Json)
deriving Repr

/-- The pure content of one adapter method: the tool invocation it builds from
its parameters, and the decoding it applies to the structured payload returned
by `callTool`. A raised `Error e` is modelled as `Except.error e`. -/
structure McpCall (α : Type) where
  tool : ToolCall
  decode : Json → Except String α

/-- Embeds the error-normalization statement repeated verbatim in eight of the
nine storage methods: `if (result.error) { throw new Error(result.error as
string) }`. The guard is JavaScript truthiness of `result.error`; the thrown
message is the string coercion of that value. -/
def throwRemoteError (result : Json) : Except String Unit :=
  match result.getField? "error" with
  | some v => if v.truthy then Except.error v.toJsString else Except.ok ()
  | none => Except.ok ()

/-- The decode shape shared by the eight error-checked storage methods: run
the error normalization on the payload, and on success compute the method
result from the payload. -/
def decodeChecked {α : Type} (k : Json → Except String α) (result : Json) :
    Except String α :=
  match throwRemoteError result with
  | Except.error msg => Except.error msg
  | Except.ok _ => k result

namespace QortexVector

/-- The shape returned by `describeIndex`: the three fields it picks out of
the decoded payload (`undefined` when absent, as in the source casts). -/
structure IndexStats where
  dimension : Option Json
  count : Option Json
  metric : Option Json
deriving Repr

/-- Embeds `QortexVector.createIndex` (part_001 lines 70-84). The destructuring
default `metric = "cosine"` applies when the caller leaves `metric` unset. -/
def createIndex (indexName : String) (dimension : Rat) (metric : Option String) :
    McpCall Unit where
  tool :=
    { name := "qortex_vector_create_index"
      args :=
        [ ("index_name", some (Json.str indexName))
        , ("dimension", some (Json.num dimension))
        , ("metric", some (Json.str (metric.getD "cosine"))) ] }
  decode := decodeChecked (fun _ => Except.ok ())

/-- Embeds `QortexVector.listIndexes` (part_001 lines 86-92). The method
returns `result.indexes` directly and performs no error check. -/
def listIndexes : McpCall (Option Json) where
  tool := { name := "qortex_vector_list_indexes", args := [] }
  decode := fun result => Except.ok (result.getField? "indexes")

/-- Embeds `QortexVector.describeIndex` (part_001 lines 94-111). -/
def describeIndex (indexName : String) : McpCall IndexStats where
  tool :=
    { name := "qortex_vector_describe_index"
      args := [ ("index_name", some (Json.str indexName)) ] }
  decode := decodeChecked (fun result =>
    Except.ok
      { dimension := result.getField? "dimension"
        count := result.getField? "count"
        metric := result.getField? "metric" })

/-- Embeds `QortexVector.deleteIndex` (part_001 lines 113-121). -/
def deleteIndex (indexName : String) : McpCall Unit where
  tool :=
    { name := "qortex_vector_delete_index"
      args := [ ("index_name", some (Json.str indexName)) ] }
  decode := decodeChecked (fun _ => Except.ok ())

/-- Embeds `QortexVector.upsert` (part_001 lines 123-141). The source writes
`metadata: metadata ?? undefined` and `ids: ids ?? undefined`; under the
declared parameter types the operands are either `undefined` or non-null
values, so `?? undefined` is the identity and the keys carry the optional
values unchanged. The returned value is `result.ids` (undefined when absent). -/
def upsert (indexName : String) (vectors : Json) (metadata ids : Option Json) :
    McpCall (Option Json) where
  tool :=
    { name := "qortex_vector_upsert"
      args :=
        [ ("index_name", some (Json.str indexName))
        , ("vectors", some vectors)
        , ("metadata", metadata)
        , ("ids", ids) ] }
  decode := decodeChecked (fun result => Except.ok (result.getField? "ids"))

/-- Embeds `QortexVector.query` (part_001 lines 143-163). Destructuring
defaults: `topK = 10`, `includeVector = false`. The returned value is
`result.results ?? []`: the declared list when present and non-null, the empty
list otherwise. No reordering and no truncation is applied. -/
def query (indexName : String) (queryVector : Json) (topK : Option Rat)
    (filter : Option Json) (includeVector : Option Bool) : McpCall Json where
  tool :=
    { name := "qortex_vector_query"
      args :=
        [ ("index_name", some (Json.str indexName))
        , ("query_vector", some queryVector)
        , ("top_k", some (Json.num (topK.getD 10)))
        , ("filter", filter)
        , ("include_vector", some (Json.bool (includeVector.getD false))) ] }
  decode := decodeChecked (fun result =>
    match result.getField? "results" with
    | none => Except.ok (Json.arr [])
    | some Json.null => Except.ok (Json.arr [])
    | some v => Except.ok v)

/-- Embeds `QortexVector.updateVector` (part_001 lines 165-182). -/
def updateVector (indexName : String) (id : Option String)
    (filter updVector updMetadata : Option Json) : McpCall Unit where
  tool :=
    { name := "qortex_vector_update"
      args :=
        [ ("index_name", some (Json.str indexName))
        , ("id", id.map Json.str)
        , ("filter", filter)
        , ("vector", updVector)
        , ("metadata", updMetadata) ] }
  decode := decodeChecked (fun _ => Except.ok ())

/-- Embeds `QortexVector.deleteVector` (part_001 lines 184-193). -/
def deleteVector (indexName id : String) : McpCall Unit where
  tool :=
    { name := "qortex_vector_delete"
      args :=
        [ ("index_name", some (Json.str indexName))
        , ("id", some (Json.str id)) ] }
  decode := decodeChecked (fun _ => Except.ok ())

/-- Embeds `QortexVector.deleteVectors` (part_001 lines 195-209). -/
def deleteVectors (indexName : String) (ids filter : Option Json) : McpCall Unit where
  tool :=
    { name := "qortex_vector_delete_many"
      args :=
        [ ("index_name", some (Json.str indexName))
        , ("ids", ids)
        , ("filter", filter) ] }
  decode := decodeChecked (fun _ => Except.ok ())

/-- Embeds `QortexVector.textQuery` (part_001 lines 222-240). Defaults via
nullish coalescing: `top_k` 20, `min_confidence` 0, `mode` "auto". The decoded
payload is returned verbatim; no error field is inspected. -/
def textQuery (context : String) (domains : Option Json)
    (topK minConfidence : Option Rat) (mode : Option String) : McpCall Json where
  tool :=
    { name := "qortex_query"
      args :=
        [ ("context", some (Json.str context))
        , ("domains", domains)
        , ("top_k", some (Json.num (topK.getD 20)))
        , ("min_confidence", some (Json.num (minConfidence.getD 0)))
        , ("mode", some (Json.str (mode.getD "auto"))) ] }
  decode := fun result => Except.ok result

/-- Embeds `QortexVector.explore` (part_001 lines 248-262). The parameter
default is `depth = 1`. The decode mirrors `if (result.node === null) return
null; return result`: strict equality with `null`, so only a node field
explicitly equal to `null` yields `none`; an absent field or any other value
returns the payload verbatim. -/
def explore (nodeId : String) (depth : Option Rat) : McpCall (Option Json) where
  tool :=
    { name := "qortex_explore"
      args :=
        [ ("node_id", some (Json.str nodeId))
        , ("depth", some (Json.num (depth.getD 1))) ] }
  decode := fun result =>
    match result.getField? "node" with
    | some Json.null => Except.ok none
    | _ => Except.ok (some result)

/-- Embeds `QortexVector.getRules` (part_001 lines 271-287). Defaults via
nullish coalescing: `include_derived` true, `min_confidence` 0. The decoded
payload is returned verbatim; no error field is inspected. -/
def getRules (domains conceptIds categories : Option Json)
    (includeDerived : Option Bool) (minConfidence : Option Rat) : McpCall Json where
  tool :=
    { name := "qortex_rules"
      args :=
        [ ("domains", domains)
        , ("concept_ids", conceptIds)
        , ("categories", categories)
        , ("include_derived", some (Json.bool (includeDerived.getD true)))
        , ("min_confidence", some (Json.num (minConfidence.getD 0))) ] }
  decode := fun result => Except.ok result

/-- Embeds `QortexVector.feedback` (part_001 lines 295-307). The parameter
default is `source = "mastra"`. The decoded payload is returned verbatim; no
error field is inspected. -/
def feedback (queryId : String) (outcomes : Json) (source : Option String) :
    McpCall Json where
  tool :=
    { name := "qortex_feedback"
      args :=
        [ ("query_id", some (Json.str queryId))
        , ("outcomes", some outcomes)
        , ("source", some (Json.str (source.getD "mastra"))) ] }
  decode := fun result => Except.ok result

end QortexVector

namespace QortexMcpClient

/-- One typed content part of an MCP tool-response envelope, as cast by
`callTool`: `Array<\x7b type: string; text?: string \x7d>`. -/
structure ContentPart where
  type : String
  text : Option String
deriving Repr

/-- Embeds the content extraction of `QortexMcpClient.callTool` (part_001
lines 393-418), after the transport round trip: `content` is the cast content
array (`none` models a missing/undefined field), and `parse` models the
external `JSON.parse` builtin, failing on text it cannot decode. The source:
no parts, no part of type "text", or a first text part whose `text` is missing
or empty, all yield the empty object; otherwise the first text part's text is
parsed and the parsed structure returned verbatim. -/
def callToolDecode (parse : String → Except String Json)
    (content : Option (List ContentPart)) : Except String Json :=
  match content with
  | none => Except.ok (Json.obj [])
  | some parts =>
      if parts.isEmpty then Except.ok (Json.obj [])
      else
        match parts.find? (fun c => c.type == "text") with
        | none => Except.ok (Json.obj [])
        | some textBlock =>
            match textBlock.text with
            | none => Except.ok (Json.obj [])
            | some t => if t = "" then Except.ok (Json.obj []) else parse t

/-- Observable state of a `QortexMcpClient` (part_001 lines 331-384): whether
`client` and `transport` are non-null, the `_connected` flag, and counters for
the externally visible side effects (processes spawned via a new
`StdioClientTransport`, channel closures via `transport.close()`). -/
structure McpClientState where
  hasClient : Bool
  hasTransport : Bool
  connected : Bool
  spawnCount : Nat
  closeCount : Nat
deriving Repr, DecidableEq

/-- Embeds the constructor (part_001 lines 337-343): fields start null and
disconnected unless a pre-configured `mcpClient` is supplied, in which case the
client is adopted and the state starts connected, with no spawn. -/
def init (hasMcpClient : Bool) : McpClientState :=
  { hasClient := hasMcpClient
    hasTransport := false
    connected := hasMcpClient
    spawnCount := 0
    closeCount := 0 }

/-- Embeds `QortexMcpClient.connect` (part_001 lines 349-375): an immediate
return when `_connected` is set; otherwise a transport is created (spawning
the process), a client is created and connected, and `_connected` becomes
true. The success path is modelled; a handshake failure aborts before
`_connected` is set. -/
def connect (s : McpClientState) : McpClientState :=
  if s.connected then s
  else
    { hasClient := true
      hasTransport := true
      connected := true
      spawnCount := s.spawnCount + 1
      closeCount := s.closeCount }

/-- Embeds `QortexMcpClient.disconnect` (part_001 lines 377-384): when a
transport is present it is closed and nulled; the client is nulled and
`_connected` cleared unconditionally. -/
def disconnect (s : McpClientState) : McpClientState :=
  { hasClient := false
    hasTransport := false
    connected := false
    spawnCount := s.spawnCount
    closeCount := if s.hasTransport then s.closeCount + 1 else s.closeCount }

end QortexMcpClient

/-- A concrete stand-in for the external `JSON.parse` builtin, used to
instantiate `callToolDecode` on concrete inputs: it rejects the empty string
(as `JSON.parse` does) and wraps any other text. -/
def parseRejectsEmpty : String → Except String Json :=
  fun s =>
    if s = "" then Except.error "Unexpected end of JSON input"
    else Except.ok (Json.str s)

/-!
Helper lemmas about the shared error-normalization step.
-/

/-- A payload whose error field is a nonempty string makes the shared
normalization raise exactly that string. -/
theorem throwRemoteError_str (payload : Json) (e : String)
    (he : payload.getField? "error" = some (Json.str e)) (hne : e ≠ "") :
    throwRemoteError payload = Except.error e := by
  unfold throwRemoteError
  rw [he]
  simp [Json.truthy, Json.toJsString, hne]

/-- A payload with no error field passes the shared normalization. -/
theorem throwRemoteError_ok (payload : Json)
    (he : payload.getField? "error" = none) :
    throwRemoteError payload = Except.ok () := by
  unfold throwRemoteError
  rw [he]

/-- A failing normalization makes a checked decode fail with the same
message. -/
theorem decodeChecked_error {α : Type} (k : Json → Except String α)
    (payload : Json) (e : String) (h : throwRemoteError payload = Except.error e) :
    decodeChecked k payload = Except.error e := by
  unfold decodeChecked
  rw [h]

/-- A passing normalization makes a checked decode compute its result from
the payload. -/
theorem decodeChecked_ok {α : Type} (k : Json → Except String α)
    (payload : Json) (h : throwRemoteError payload = Except.ok ()) :
    decodeChecked k payload = k payload := by
  unfold decodeChecked
  rw [h]

/-!
Claim theorems.
-/

/-- C1 counterexample: the claim asserts that all nine storage operations
raise the remote-supplied error string when the decoded payload carries an
error field, but `listIndexes` performs no error check: on the payload
`{ error: "boom" }` it succeeds, returning `result.indexes` (undefined here)
instead of raising "boom". -/
theorem C1_counterexample :
    QortexVector.listIndexes.decode (Json.obj [("error", Json.str "boom")])
        = Except.ok none ∧
    QortexVector.listIndexes.decode (Json.obj [("error", Json.str "boom")])
        ≠ Except.error "boom" := by
  refine ⟨rfl, fun h => ?_⟩
  rw [show QortexVector.listIndexes.decode (Json.obj [("error", Json.str "boom")])
        = Except.ok none from rfl] at h
  exact Except.noConfusion h

/-- C1 (amended): for eight of the nine storage operations — all except
`listIndexes` — a decoded payload whose error field is a nonempty string
raises a failure whose message is exactly that string, unwrapped and
untruncated, and a payload with no error field raises no failure at this
layer; `listIndexes` never raises at this layer, ignoring any error field. -/
theorem C1_storage_error_normalization
    (indexName id : String) (dimension : Rat) (metric : Option String)
    (vectors queryVector : Json)
    (metadata ids filter updVector updMetadata : Option Json)
    (idSel : Option String) (topK : Option Rat) (includeVector : Option Bool)
    (payload : Json) :
    (∀ e : String, payload.getField? "error" = some (Json.str e) → e ≠ "" →
      (QortexVector.createIndex indexName dimension metric).decode payload
          = Except.error e ∧
      (QortexVector.describeIndex indexName).decode payload = Except.error e ∧
      (QortexVector.deleteIndex indexName).decode payload = Except.error e ∧
      (QortexVector.upsert indexName vectors metadata ids).decode payload
          = Except.error e ∧
      (QortexVector.query indexName queryVector topK filter includeVector).decode
          payload = Except.error e ∧
      (QortexVector.updateVector indexName idSel filter updVector updMetadata).decode
          payload = Except.error e ∧
      (QortexVector.deleteVector indexName id).decode payload = Except.error e ∧
      (QortexVector.deleteVectors indexName ids filter).decode payload
          = Except.error e) ∧
    (payload.getField? "error" = none →
      (QortexVector.createIndex indexName dimension metric).decode payload
          = Except.ok () ∧
      (∃ v, (QortexVector.describeIndex indexName).decode payload = Except.ok v) ∧
      (QortexVector.deleteIndex indexName).decode payload = Except.ok () ∧
      (∃ v, (QortexVector.upsert indexName vectors metadata ids).decode payload
          = Except.ok v) ∧
      (∃ v, (QortexVector.query indexName queryVector topK filter
          includeVector).decode payload = Except.ok v) ∧
      (QortexVector.updateVector indexName idSel filter updVector
          updMetadata).decode payload = Except.ok () ∧
      (QortexVector.deleteVector indexName id).decode payload = Except.ok () ∧
      (QortexVector.deleteVectors indexName ids filter).decode payload
          = Except.ok ()) ∧
    (∃ v, QortexVector.listIndexes.decode payload = Except.ok v) := by
  refine ⟨fun e he hne => ?_, fun he => ?_, ⟨_, rfl⟩⟩
  · have h := throwRemoteError_str payload e he hne
    refine ⟨?_, ?_, ?_, ?_, ?_, ?_, ?_, ?_⟩ <;>
    · simp only [QortexVector.createIndex, QortexVector.describeIndex,
        QortexVector.deleteIndex, QortexVector.upsert, QortexVector.query,
        QortexVector.updateVector, QortexVector.deleteVector,
        QortexVector.deleteVectors]
      exact decodeChecked_error _ payload e h
  · have h := throwRemoteError_ok payload he
    refine ⟨?_, ?_, ?_, ?_, ?_, ?_, ?_, ?_⟩
    · simp only [QortexVector.createIndex]
      exact decodeChecked_ok _ payload h
    · simp only [QortexVector.describeIndex]
      exact ⟨_, decodeChecked_ok _ payload h⟩
    · simp only [QortexVector.deleteIndex]
      exact decodeChecked_ok _ payload h
    · simp only [QortexVector.upsert]
      exact ⟨_, decodeChecked_ok _ payload h⟩
    · simp only [QortexVector.query]
      rw [decodeChecked_ok _ payload h]
      rcases payload.getField? "results" with _ | v
      · exact ⟨_, rfl⟩
      · cases v <;> exact ⟨_, rfl⟩
    · simp only [QortexVector.updateVector]
      exact decodeChecked_ok _ payload h
    · simp only [QortexVector.deleteVector]
      exact decodeChecked_ok _ payload h
    · simp only [QortexVector.deleteVectors]
      exact decodeChecked_ok _ payload h

/-- C1 witness: the amended theorem applied at the payload
`{ error: "boom" }` for the error half and at `{ status: "ok" }` for the
no-failure half. -/
theorem C1_witness :
    (QortexVector.createIndex "docs" 384 none).decode
        (Json.obj [("error", Json.str "boom")]) = Except.error "boom" ∧
    (QortexVector.deleteIndex "docs").decode
        (Json.obj [("status", Json.str "deleted")]) = Except.ok () ∧
    (∃ v, QortexVector.listIndexes.decode
        (Json.obj [("error", Json.str "boom")]) = Except.ok v) := by
  refine ⟨?_, ?_, ?_⟩
  · exact ((C1_storage_error_normalization "docs" "x" 384 none (Json.arr [])
      (Json.arr []) none none none none none none none none
      (Json.obj [("error", Json.str "boom")])).1 "boom" rfl
      (by decide)).1
  · exact ((C1_storage_error_normalization "docs" "x" 384 none (Json.arr [])
      (Json.arr []) none none none none none none none none
      (Json.obj [("status", Json.str "deleted")])).2.1 rfl).2.2.1
  · exact (C1_storage_error_normalization "docs" "x" 384 none (Json.arr [])
      (Json.arr []) none none none none none none none none
      (Json.obj [("error", Json.str "boom")])).2.2

/-- C2 counterexample: the claim asserts that a remote error field in the
decoded payload of any of the four Retrieval Extension operations raises a
caller-visible failure, and that feedback in particular is not silent on
remote failure. In the code none of the four inspects the error field: on the
payload `{ error: "boom" }` both feedback and textQuery succeed, returning the
payload verbatim instead of raising. -/
theorem C2_counterexample :
    (QortexVector.feedback "q-1" (Json.obj []) none).decode
        (Json.obj [("error", Json.str "boom")])
        = Except.ok (Json.obj [("error", Json.str "boom")]) ∧
    (QortexVector.textQuery "auth" none none none none).decode
        (Json.obj [("error", Json.str "boom")])
        = Except.ok (Json.obj [("error", Json.str "boom")]) ∧
    (QortexVector.feedback "q-1" (Json.obj []) none).decode
        (Json.obj [("error", Json.str "boom")])
        ≠ Except.error "boom" := by
  refine ⟨rfl, rfl, fun h => ?_⟩
  rw [show (QortexVector.feedback "q-1" (Json.obj []) none).decode
      (Json.obj [("error", Json.str "boom")])
      = Except.ok (Json.obj [("error", Json.str "boom")]) from rfl] at h
  exact Except.noConfusion h

/-- C2 (amended): none of the four Retrieval Extension operations performs
any error-field normalization. textQuery, getRules and feedback return every
decoded payload verbatim — an error field included — raising no failure, and
explore raises no failure either, returning the null sentinel or the payload;
a remote error therefore does not surface as a raised failure at this layer. -/
theorem C2_extension_no_error_check (payload : Json)
    (context queryId nodeId : String)
    (domains conceptIds categories : Option Json) (outcomes : Json)
    (topK minConfidence depth : Option Rat) (mode source : Option String)
    (includeDerived : Option Bool) :
    (QortexVector.textQuery context domains topK minConfidence mode).decode
        payload = Except.ok payload ∧
    (QortexVector.getRules domains conceptIds categories includeDerived
        minConfidence).decode payload = Except.ok payload ∧
    (QortexVector.feedback queryId outcomes source).decode payload
        = Except.ok payload ∧
    ((QortexVector.explore nodeId depth).decode payload = Except.ok none ∨
     (QortexVector.explore nodeId depth).decode payload
        = Except.ok (some payload)) := by
  refine ⟨rfl, rfl, rfl, ?_⟩
  simp only [QortexVector.explore]
  rcases payload.getField? "node" with _ | v
  · exact Or.inr rfl
  · cases v
    · exact Or.inl rfl
    all_goals exact Or.inr rfl

/-- C3: explore returns the null sentinel exactly when the decoded payload
carries a node field explicitly equal to null — the null-node marker — and
otherwise returns the payload verbatim (the node with its edges, neighbors
and rules); in particular, under the wire contract that the remote signals a
never-created node id by the null-node marker, the result for such an id is
the null sentinel and never an object with empty fields. -/
theorem C3_explore_null_sentinel (nodeId : String) (depth : Option Rat)
    (payload : Json) :
    ((QortexVector.explore nodeId depth).decode payload = Except.ok none ↔
        payload.getField? "node" = some Json.null) ∧
    (payload.getField? "node" ≠ some Json.null →
        (QortexVector.explore nodeId depth).decode payload
          = Except.ok (some payload)) := by
  simp only [QortexVector.explore]
  rcases payload.getField? "node" with _ | v
  · exact ⟨⟨fun h => Option.noConfusion (Except.ok.inj h),
      fun h => Option.noConfusion h⟩, fun _ => rfl⟩
  · cases v
    · exact ⟨⟨fun _ => rfl, fun _ => rfl⟩, fun h => absurd rfl h⟩
    all_goals exact ⟨⟨fun h => Option.noConfusion (Except.ok.inj h),
      fun h => Json.noConfusion (Option.some.inj h)⟩, fun _ => rfl⟩

/-- C3 witness: the theorem applied at a payload carrying the null-node
marker and at one carrying a real node. -/
theorem C3_witness :
    (QortexVector.explore "ghost" none).decode (Json.obj [("node", Json.null)])
        = Except.ok none ∧
    (QortexVector.explore "sec-oauth" none).decode
        (Json.obj [("node", Json.str "n"), ("edges", Json.arr [])])
        = Except.ok (some (Json.obj [("node", Json.str "n"),
            ("edges", Json.arr [])])) := by
  constructor
  · exact (C3_explore_null_sentinel "ghost" none
      (Json.obj [("node", Json.null)])).1.mpr rfl
  · exact (C3_explore_null_sentinel "sec-oauth" none
      (Json.obj [("node", Json.str "n"), ("edges", Json.arr [])])).2
      (fun h => Json.noConfusion (Option.some.inj h))

/-- C4 counterexample: the claim asserts the returned sequence length never
exceeds the effective topK of the call, but query applies no local
truncation: a call whose argument mapping carries top_k = 1 still returns
both results when the decoded response declares two. -/
theorem C4_counterexample :
    (QortexVector.query "docs" (Json.arr []) (some 1) none none).tool.args.lookup
        "top_k" = some (some (Json.num 1)) ∧
    (QortexVector.query "docs" (Json.arr []) (some 1) none none).decode
        (Json.obj [("results", Json.arr [Json.obj [("id", Json.str "a")],
            Json.obj [("id", Json.str "b")]])])
        = Except.ok (Json.arr [Json.obj [("id", Json.str "a")],
            Json.obj [("id", Json.str "b")]]) ∧
    ¬ ([Json.obj [("id", Json.str "a")], Json.obj [("id", Json.str "b")]].length
        ≤ 1) := by
  exact ⟨rfl, rfl, by decide⟩

/-- C4 (amended): on a successful call, query returns exactly the sequence
declared in the decoded remote response, in the same order — no local
re-sort, no local reordering, and also no local truncation; the length bound
by topK holds only when the remote itself returns at most topK results. -/
theorem C4_query_passthrough (indexName : String) (queryVector : Json)
    (topK : Option Rat) (filter : Option Json) (includeVector : Option Bool)
    (payload : Json) (rs : List Json)
    (hres : payload.getField? "results" = some (Json.arr rs))
    (herr : payload.getField? "error" = none) :
    (QortexVector.query indexName queryVector topK filter includeVector).decode
        payload = Except.ok (Json.arr rs) := by
  simp only [QortexVector.query]
  rw [decodeChecked_ok _ payload (throwRemoteError_ok payload herr), hres]

/-- C4 witness: the amended theorem applied at a concrete two-element
response, showing the declared sequence is returned in its declared order. -/
theorem C4_witness :
    (QortexVector.query "docs" (Json.arr []) none none none).decode
        (Json.obj [("results", Json.arr [Json.str "r1", Json.str "r2"])])
        = Except.ok (Json.arr [Json.str "r1", Json.str "r2"]) :=
  C4_query_passthrough "docs" (Json.arr []) none none none
    (Json.obj [("results", Json.arr [Json.str "r1", Json.str "r2"])])
    [Json.str "r1", Json.str "r2"] rfl rfl

/-- C5 counterexample: the claim asserts that whenever a first textual part
exists its text is parsed as JSON and the parsed structure returned, but a
first part tagged "text" whose text is the empty string is not parsed: the
call returns the empty result mapping, while parsing the empty string would
have failed. -/
theorem C5_counterexample :
    QortexMcpClient.callToolDecode parseRejectsEmpty
        (some [{ type := "text", text := some "" }]) = Except.ok (Json.obj []) ∧
    parseRejectsEmpty "" = Except.error "Unexpected end of JSON input" ∧
    QortexMcpClient.callToolDecode parseRejectsEmpty
        (some [{ type := "text", text := some "" }]) ≠ parseRejectsEmpty "" := by
  refine ⟨rfl, rfl, fun h => ?_⟩
  rw [show QortexMcpClient.callToolDecode parseRejectsEmpty
      (some [{ type := "text", text := some "" }]) = Except.ok (Json.obj [])
      from rfl,
    show parseRejectsEmpty "" = Except.error "Unexpected end of JSON input"
      from rfl] at h
  exact Except.noConfusion h

/-- C5 (amended): callTool succeeds with the empty result mapping when the
envelope carries no content field, zero parts, no part tagged "text", or a
first "text"-tagged part whose text is missing or empty; when the first
"text"-tagged part carries nonempty text, that text is parsed as JSON and the
parsed structure is returned verbatim. -/
theorem C5_callTool_content_handling (parse : String → Except String Json) :
    (QortexMcpClient.callToolDecode parse none = Except.ok (Json.obj [])) ∧
    (QortexMcpClient.callToolDecode parse (some []) = Except.ok (Json.obj [])) ∧
    (∀ parts : List QortexMcpClient.ContentPart,
      parts.find? (fun c => c.type == "text") = none →
      QortexMcpClient.callToolDecode parse (some parts)
        = Except.ok (Json.obj [])) ∧
    (∀ (parts : List QortexMcpClient.ContentPart)
        (tb : QortexMcpClient.ContentPart),
      parts.find? (fun c => c.type == "text") = some tb →
      (tb.text = none ∨ tb.text = some "") →
      QortexMcpClient.callToolDecode parse (some parts)
        = Except.ok (Json.obj [])) ∧
    (∀ (parts : List QortexMcpClient.ContentPart)
        (tb : QortexMcpClient.ContentPart) (t : String),
      parts.find? (fun c => c.type == "text") = some tb →
      tb.text = some t → t ≠ "" →
      QortexMcpClient.callToolDecode parse (some parts) = parse t) := by
  refine ⟨rfl, rfl, fun parts hf => ?_, fun parts tb hf ht => ?_,
    fun parts tb t hf ht hne => ?_⟩
  · cases parts with
    | nil => rfl
    | cons p rest =>
        simp [QortexMcpClient.callToolDecode, hf]
  · cases parts with
    | nil => exact Option.noConfusion hf
    | cons p rest =>
        rcases ht with ht | ht <;>
          simp [QortexMcpClient.callToolDecode, hf, ht]
  · cases parts with
    | nil => exact Option.noConfusion hf
    | cons p rest =>
        simp [QortexMcpClient.callToolDecode, hf, ht, hne]

/-- C5 witness: the amended theorem applied at concrete envelopes — a
non-text part followed by a text part with nonempty text parses that text,
and an envelope whose only part is tagged "image" yields the empty result. -/
theorem C5_witness :
    QortexMcpClient.callToolDecode parseRejectsEmpty
        (some [{ type := "image", text := none },
               { type := "text", text := some "ok" }])
        = parseRejectsEmpty "ok" ∧
    QortexMcpClient.callToolDecode parseRejectsEmpty
        (some [{ type := "image", text := none }])
        = Except.ok (Json.obj []) := by
  constructor
  · exact (C5_callTool_content_handling parseRejectsEmpty).2.2.2.2
      [{ type := "image", text := none }, { type := "text", text := some "ok" }]
      { type := "text", text := some "ok" } "ok" rfl rfl (by decide)
  · exact (C5_callTool_content_handling parseRejectsEmpty).2.2.1
      [{ type := "image", text := none }] rfl

/-- C6: every default is applied locally while building the remote argument
mapping, never left to the remote: metric defaults to cosine, query topK to
10 and includeVector to false; textQuery topK defaults to 20, minConfidence
to 0 and mode to auto; getRules includeDerived defaults to true and
minConfidence to 0; feedback source defaults to "mastra". Each default value
appears literally in the argument mapping of a call whose caller left the
option unset. -/
theorem C6_local_defaults (indexName context queryId : String) (dimension : Rat)
    (queryVector outcomes : Json)
    (filter domains conceptIds categories : Option Json) :
    (QortexVector.createIndex indexName dimension none).tool.args.lookup "metric"
        = some (some (Json.str "cosine")) ∧
    (QortexVector.query indexName queryVector none filter none).tool.args.lookup
        "top_k" = some (some (Json.num 10)) ∧
    (QortexVector.query indexName queryVector none filter none).tool.args.lookup
        "include_vector" = some (some (Json.bool false)) ∧
    (QortexVector.textQuery context domains none none none).tool.args.lookup
        "top_k" = some (some (Json.num 20)) ∧
    (QortexVector.textQuery context domains none none none).tool.args.lookup
        "min_confidence" = some (some (Json.num 0)) ∧
    (QortexVector.textQuery context domains none none none).tool.args.lookup
        "mode" = some (some (Json.str "auto")) ∧
    (QortexVector.getRules domains conceptIds categories none none).tool.args.lookup
        "include_derived" = some (some (Json.bool true)) ∧
    (QortexVector.getRules domains conceptIds categories none none).tool.args.lookup
        "min_confidence" = some (some (Json.num 0)) ∧
    (QortexVector.feedback queryId outcomes none).tool.args.lookup "source"
        = some (some (Json.str "mastra")) :=
  ⟨rfl, rfl, rfl, rfl, rfl, rfl, rfl, rfl, rfl⟩

/-- C7: optional fields the caller leaves unset are still present in the
remote argument mapping as keys holding the explicit absent marker
(JavaScript undefined), rather than the key being omitted — and a
caller-supplied explicitly-empty value is carried as that value, so the two
remain distinguishable in the mapping. -/
theorem C7_absent_markers (indexName : String) (vectors m : Json) :
    (QortexVector.upsert indexName vectors none none).tool.args.lookup "metadata"
        = some none ∧
    (QortexVector.upsert indexName vectors none none).tool.args.lookup "ids"
        = some none ∧
    (QortexVector.deleteVectors indexName none none).tool.args.lookup "ids"
        = some none ∧
    (QortexVector.deleteVectors indexName none none).tool.args.lookup "filter"
        = some none ∧
    (QortexVector.updateVector indexName none none none none).tool.args.lookup
        "filter" = some none ∧
    (QortexVector.query indexName vectors none none none).tool.args.lookup
        "filter" = some none ∧
    (QortexVector.upsert indexName vectors (some m) none).tool.args.lookup
        "metadata" = some (some m) ∧
    (some (some m) : Option (Option Json)) ≠ some none := by
  refine ⟨rfl, rfl, rfl, rfl, rfl, rfl, rfl, fun h => ?_⟩
  exact Option.noConfusion (Option.some.inj h)

/-- C8 counterexample: the claim asserts a supplied depth outside 1-3 is
rejected or clamped before the remote call, but explore forwards the depth
unmodified: a call with depth 7 carries depth 7 in its argument mapping,
which lies outside the closed range 1-3. -/
theorem C8_counterexample :
    (QortexVector.explore "n1" (some 7)).tool.args.lookup "depth"
        = some (some (Json.num 7)) ∧
    ¬ ((1 : Rat) ≤ 7 ∧ (7 : Rat) ≤ 3) := by
  refine ⟨rfl, fun h => ?_⟩
  exact absurd h.2 (by norm_num)

/-- C8 (amended): explore sends depth 1 when the caller does not supply a
depth, and forwards any supplied depth to the remote unmodified — no local
rejection and no local clamping constrains it to the range 1-3. -/
theorem C8_depth_forwarding (nodeId : String) (d : Rat) :
    (QortexVector.explore nodeId none).tool.args.lookup "depth"
        = some (some (Json.num 1)) ∧
    (QortexVector.explore nodeId (some d)).tool.args.lookup "depth"
        = some (some (Json.num d)) :=
  ⟨rfl, rfl⟩

/-- C9: connect on an already-connected client returns immediately — no
state change and no second process spawn; disconnect is idempotent, is a
no-op on a fully disconnected client, and always leaves the connection
status disconnected. -/
theorem C9_lifecycle (s : QortexMcpClient.McpClientState) :
    (s.connected = true → QortexMcpClient.connect s = s) ∧
    (QortexMcpClient.disconnect (QortexMcpClient.disconnect s)
        = QortexMcpClient.disconnect s) ∧
    (s.connected = false → s.hasTransport = false → s.hasClient = false →
        QortexMcpClient.disconnect s = s) ∧
    ((QortexMcpClient.disconnect s).connected = false) := by
  obtain ⟨hc, ht, co, sp, cl⟩ := s
  refine ⟨fun h => ?_, ?_, fun h1 h2 h3 => ?_, rfl⟩
  · simp only at h
    simp [QortexMcpClient.connect, h]
  · simp [QortexMcpClient.disconnect]
  · simp only at h1 h2 h3
    simp [QortexMcpClient.disconnect, h1, h2, h3]

/-- C9 witness: the theorem applied at a connected state (connect is the
identity there, spawn counter included) and at a fully disconnected state
(disconnect is the identity there). -/
theorem C9_witness :
    QortexMcpClient.connect
        { hasClient := true, hasTransport := true, connected := true,
          spawnCount := 1, closeCount := 0 }
        = { hasClient := true, hasTransport := true, connected := true,
            spawnCount := 1, closeCount := 0 } ∧
    QortexMcpClient.disconnect
        { hasClient := false, hasTransport := false, connected := false,
          spawnCount := 1, closeCount := 1 }
        = { hasClient := false, hasTransport := false, connected := false,
            spawnCount := 1, closeCount := 1 } := by
  constructor
  · exact (C9_lifecycle _).1 rfl
  · exact (C9_lifecycle _).2.2.1 rfl rfl rfl

/-- C10: a decoded explore payload whose node field is absent, or present
with any value other than the explicit null marker, is returned to the
caller verbatim as a non-null found result; only a node field explicitly
equal to null produces the null return. -/
theorem C10_explore_nonnull (nodeId : String) (depth : Option Rat)
    (payload : Json) :
    (payload.getField? "node" = none →
        (QortexVector.explore nodeId depth).decode payload
          = Except.ok (some payload)) ∧
    (∀ v : Json, payload.getField? "node" = some v → v ≠ Json.null →
        (QortexVector.explore nodeId depth).decode payload
          = Except.ok (some payload)) := by
  simp only [QortexVector.explore]
  rcases payload.getField? "node" with _ | v
  · exact ⟨fun _ => rfl, fun v h => Option.noConfusion h⟩
  · refine ⟨fun h => Option.noConfusion h, fun w hw hne => ?_⟩
    cases v
    · exact absurd (Option.some.inj hw).symm hne
    all_goals rfl

/-- C10 witness: the theorem applied at a payload with no node key at all —
the payload is handed back as a found result. -/
theorem C10_witness :
    (QortexVector.explore "n1" none).decode
        (Json.obj [("edges", Json.arr []), ("neighbors", Json.arr [])])
        = Except.ok (some (Json.obj [("edges", Json.arr []),
            ("neighbors", Json.arr [])])) :=
  (C10_explore_nonnull "n1" none
    (Json.obj [("edges", Json.arr []), ("neighbors", Json.arr [])])).1 rfl
